import Mathlib

/-!
Shallow embedding of `src/refiner.rs` from the `tibber_refiner` repository.

Prices (`f64` in the source) are modelled as rationals `ℚ`; floating-point
rounding and non-finite values are outside the model.  The InfluxDB client is
modelled as an oracle `DB : Nat → Except String (List HourPrice)` giving the
result of each syntactic `get_prices` call site inside `refine` (index 0 is
the initial fetch, indices 1–14 the re-fetches performed by the
sub-computations).  Pure helpers (`price_now`, `average`, `highest`, …) take
the fetched series directly.
-/

deriving instance DecidableEq for Except

namespace Refiner

/-- `type HourPrice = (usize, f64)` from refiner.rs, with the price as `ℚ`. -/
abbrev HourPrice := Nat × ℚ

/-- Model of `f64::partial_cmp` restricted to finite values: on `ℚ` the
comparison always succeeds. -/
def partialCmpQ (a b : ℚ) : Option Ordering :=
  if a < b then some .lt else if a = b then some .eq else some .gt

/-- The comparator `|a, b| a.1.partial_cmp(&b.1).unwrap_or(Ordering::Equal)`
used by `highest` (ascending by price). -/
def cmpByPriceAsc (a b : HourPrice) : Ordering :=
  (partialCmpQ a.2 b.2).getD .eq

/-- The comparator `|a, b| b.1.partial_cmp(&a.1).unwrap_or(Ordering::Equal)`
used by `lowest` (descending by price). -/
def cmpByPriceDesc (a b : HourPrice) : Ordering :=
  (partialCmpQ b.2 a.2).getD .eq

/-- Stable insertion of `x` into a list sorted by comparator `c`: `x` goes
after every element strictly smaller under `c`, so equal elements keep their
original relative order, matching `Vec::sort_by` (a stable sort). -/
def insertCmp (c : HourPrice → HourPrice → Ordering) (x : HourPrice) :
    List HourPrice → List HourPrice
  | [] => [x]
  | y :: ys => if c y x = .lt then y :: insertCmp c x ys else x :: y :: ys

/-- Stable sort by comparator `c`, modelling `Vec::sort_by`. -/
def sortCmp (c : HourPrice → HourPrice → Ordering) :
    List HourPrice → List HourPrice
  | [] => []
  | x :: xs => insertCmp c x (sortCmp c xs)

/-- The window filter `start <= hour_price.0 && hour_price.0 <= stop` shared
by `highest` and `lowest` (refiner.rs lines 119 and 135). -/
def windowFilter (start stop : Nat) (l : List HourPrice) : List HourPrice :=
  l.filter fun hp => decide (start ≤ hp.1) && decide (hp.1 ≤ stop)

/-- `highest(day, count, start, stop, client)` with the fetched series passed
in: filter to the window, sort ascending by price, take `count`. -/
def highest (prices : List HourPrice) (count start stop : Nat) :
    List HourPrice :=
  (sortCmp cmpByPriceAsc (windowFilter start stop prices)).take count

/-- `lowest(day, count, start, stop, client)` with the fetched series passed
in: filter to the window, sort descending by price, take `count`. -/
def lowest (prices : List HourPrice) (count start stop : Nat) :
    List HourPrice :=
  (sortCmp cmpByPriceDesc (windowFilter start stop prices)).take count

/-- `price_now(now, prices)`: positional access `prices.get(now)`. -/
def price_now (now : Nat) (prices : List HourPrice) : Except String ℚ :=
  match prices.get? now with
  | some hp => .ok hp.2
  | none => .error ("Access index out of bounds using hour = " ++ toString now)

/-- The value computed by `average`: the price sum divided by the literal
`24.0`. -/
def avgOf (prices : List HourPrice) : ℚ :=
  (prices.map Prod.snd).sum / 24

/-- `average(prices)`: always `Ok(sum / 24.0)`. -/
def average (prices : List HourPrice) : Except String ℚ :=
  .ok (avgOf prices)

/-- `price_ratio(now, prices) = Ok(price_now(now, prices)? / average(prices)?)`. -/
def price_ratio (now : Nat) (prices : List HourPrice) : Except String ℚ :=
  (price_now now prices).bind fun p => (average prices).bind fun a => .ok (p / a)

/-- `max(day, client)`: first element of `highest(day, 1, 0, 24)`. -/
def maxPair (prices : List HourPrice) : Except String HourPrice :=
  match (highest prices 1 0 24).head? with
  | some hp => .ok hp
  | none => .error "Error taking first from highest"

/-- `min(day, client)`: first element of `lowest(day, 1, 0, 24)`. -/
def minPair (prices : List HourPrice) : Except String HourPrice :=
  match (lowest prices 1 0 24).head? with
  | some hp => .ok hp
  | none => .error "Error taking first from lowest"

/-- `rel_thresh(day, low, high, prices, client)`: the average comes from the
`prices` argument, the filtered entries from the freshly fetched series
(`fetched` here).  A threshold strictly greater than `1.0` is divided by
`100.0`; membership is strict on both sides. -/
def rel_thresh (low_thresh high_thresh : ℚ) (prices fetched : List HourPrice) :
    List HourPrice :=
  let avg := avgOf prices
  let low_val := (if 1 < low_thresh then low_thresh / 100 else low_thresh) * avg
  let high_val := (if 1 < high_thresh then high_thresh / 100 else high_thresh) * avg
  fetched.filter fun hp => decide (hp.2 < high_val) && decide (low_val < hp.2)

/-- `within_thresh(now, low, high, prices, client)`: does `now` appear among
the hours of `rel_thresh`. -/
def within_thresh (now : Nat) (low high : ℚ) (prices fetched : List HourPrice) :
    Bool :=
  (rel_thresh low high prices fetched).any fun hp => hp.1 == now

/-- `in_6_l_8(day, now, client)` on already-fetched series: NOT a member of
`highest(day, 2, 0, 8)` AND a member of `highest(day, 8, 0, 8)`.  `s1` and
`s2` are the series returned by the two internal fetches. -/
def in_6_l_8 (now : Nat) (s1 s2 : List HourPrice) : Bool :=
  !((highest s1 2 0 8).any fun hp => hp.1 == now) &&
    ((highest s2 8 0 8).any fun hp => hp.1 == now)

/-- `in_top(day, now, start, stop, client)`: member of `highest(day, 3, start, stop)`. -/
def in_top (now start stop : Nat) (s : List HourPrice) : Bool :=
  (highest s 3 start stop).any fun hp => hp.1 == now

/-- `in_8_low(now, client)`: member of `lowest(Today, 8, 0, 8)`. -/
def in_8_low (now : Nat) (s : List HourPrice) : Bool :=
  (lowest s 8 0 8).any fun hp => hp.1 == now

/-- The store oracle: call site `i` of `get_prices` inside one `refine` call
returns `db i` (an error models a failed query or parse). -/
abbrev DB := Nat → Except String (List HourPrice)

/-- The `in_6_l_8` future including its two internal fetches (call sites 1
and 2); the second fetch is reached only when `&&` needs its right side. -/
def in_6_l_8F (now : Nat) (db : DB) : Except String Bool :=
  (db 1).bind fun s1 =>
    if (highest s1 2 0 8).any (fun hp => hp.1 == now) then .ok false
    else (db 2).bind fun s2 => .ok ((highest s2 8 0 8).any fun hp => hp.1 == now)

/-- An `in_top` future with its fetch at call site `i`. -/
def in_topF (now : Nat) (db : DB) (i start stop : Nat) : Except String Bool :=
  (db i).map (in_top now start stop)

/-- A `within_thresh` future: the average uses the pre-fetched `prices`, the
window members come from the fetch at call site `i`. -/
def within_threshF (now : Nat) (low high : ℚ) (prices : List HourPrice)
    (db : DB) (i : Nat) : Except String Bool :=
  (db i).map (within_thresh now low high prices)

/-- The `in_8_low` future with its fetch at call site 12. -/
def in_8_lowF (now : Nat) (db : DB) : Except String Bool :=
  (db 12).map (in_8_low now)

/-- The `max` future with its fetch at call site 13. -/
def maxPairF (db : DB) : Except String HourPrice :=
  (db 13).bind maxPair

/-- The `min` future with its fetch at call site 14. -/
def minPairF (db : DB) : Except String HourPrice :=
  (db 14).bind minPair

/-- The pure fields of the `Refined` row (`time` and `date` are wall-clock
derived and outside the model). -/
structure RefinedData where
  hour : Nat
  pris_snitt_24 : ℚ
  pris_time : ℚ
  pris_forhold_24 : ℚ
  pris_max : Nat
  pris_min : Nat
  in_6_l_8 : Bool
  in_0_6_high : Bool
  in_6_12_high : Bool
  in_12_18_high : Bool
  in_18_24_high : Bool
  t90_115 : Bool
  t60_90 : Bool
  t0_60 : Bool
  t115_140 : Bool
  t140_999 : Bool
  i8h_low : Bool
deriving DecidableEq, Repr

/-- `refine(hour, client)` up to the write: the initial fetch is call site 0;
the `?` operators are applied in the field order of the `Refined` struct
literal, so the bind order below reproduces the code's error priority.  The
row is written to the store if and only if the result is `.ok`. -/
def refineRecord (hour : Nat) (db : DB) : Except String RefinedData :=
  (db 0).bind fun prices =>
  (average prices).bind fun vSnitt =>
  (price_now hour prices).bind fun vTime =>
  (price_ratio hour prices).bind fun vForhold =>
  (maxPairF db).bind fun pmax =>
  (minPairF db).bind fun pmin =>
  (in_6_l_8F hour db).bind fun b6l8 =>
  (in_topF hour db 3 0 6).bind fun b06 =>
  (in_topF hour db 4 6 12).bind fun b612 =>
  (in_topF hour db 5 12 18).bind fun b1218 =>
  (in_topF hour db 6 18 24).bind fun b1824 =>
  (within_threshF hour 90 115 prices db 7).bind fun t90 =>
  (within_threshF hour 60 90 prices db 8).bind fun t60 =>
  (within_threshF hour 0 60 prices db 9).bind fun t0 =>
  (within_threshF hour 115 140 prices db 10).bind fun t115 =>
  (within_threshF hour 140 999 prices db 11).bind fun t140 =>
  (in_8_lowF hour db).bind fun bLow =>
  .ok { hour := hour, pris_snitt_24 := vSnitt, pris_time := vTime,
        pris_forhold_24 := vForhold, pris_max := pmax.1, pris_min := pmin.1,
        in_6_l_8 := b6l8, in_0_6_high := b06, in_6_12_high := b612,
        in_12_18_high := b1218, in_18_24_high := b1824,
        t90_115 := t90, t60_90 := t60, t0_60 := t0, t115_140 := t115,
        t140_999 := t140, i8h_low := bLow }

/-- Success of every sub-computation of `refine` (the fetch, the three series
statistics and the thirteen joined futures). -/
def subsOk (hour : Nat) (db : DB) : Bool :=
  match db 0 with
  | .error _ => false
  | .ok prices =>
    (average prices).isOk && (price_now hour prices).isOk &&
    (price_ratio hour prices).isOk && (maxPairF db).isOk && (minPairF db).isOk &&
    (in_6_l_8F hour db).isOk && (in_topF hour db 3 0 6).isOk &&
    (in_topF hour db 4 6 12).isOk && (in_topF hour db 5 12 18).isOk &&
    (in_topF hour db 6 18 24).isOk &&
    (within_threshF hour 90 115 prices db 7).isOk &&
    (within_threshF hour 60 90 prices db 8).isOk &&
    (within_threshF hour 0 60 prices db 9).isOk &&
    (within_threshF hour 115 140 prices db 10).isOk &&
    (within_threshF hour 140 999 prices db 11).isOk &&
    (in_8_lowF hour db).isOk

/-- A 24-entry series with strictly decreasing prices: hour `h` has price
`24 - h`, so hour 0 is the most expensive and hour 23 the cheapest. -/
def decSeries24 : List HourPrice :=
  [(0, 24), (1, 23), (2, 22), (3, 21), (4, 20), (5, 19), (6, 18), (7, 17),
   (8, 16), (9, 15), (10, 14), (11, 13), (12, 12), (13, 11), (14, 10),
   (15, 9), (16, 8), (17, 7), (18, 6), (19, 5), (20, 4), (21, 3), (22, 2),
   (23, 1)]

/-- The spec's `in_6_l_8` test vector: hours 0–7 with prices 9,8,…,2. -/
def shoulderSeries : List HourPrice :=
  [(0, 9), (1, 8), (2, 7), (3, 6), (4, 5), (5, 4), (6, 3), (7, 2)]

/-- The spec's boundary-inclusivity example series `{5: 10, 6: 20, 7: 5}`. -/
def boundarySeries : List HourPrice :=
  [(5, 10), (6, 20), (7, 5)]

/-- A two-entry series whose price sum is 240, so the fixed-24 daily average
is 10 and hour 0 sits exactly on the 90 per cent bound. -/
def thrBoundarySeries : List HourPrice := [(0, 9), (1, 231)]

/-- A two-entry series with sum 240 (average 10) and hour 0 priced 10,
strictly inside the 90–115 per cent band. -/
def thrCexSeries : List HourPrice := [(0, 10), (1, 230)]

/-- The series returned by the initial fetch in the C5 scenario. -/
def firstFetchSeries : List HourPrice := [(0, 1), (1, 2)]

/-- A different series (same hours, prices swapped) returned by the
re-fetches in the C5 scenario. -/
def laterFetchSeries : List HourPrice := [(0, 2), (1, 1)]

/-- A store whose every read returns `firstFetchSeries`. -/
def dbSame : DB := fun _ => .ok firstFetchSeries

/-- A store whose initial read returns `firstFetchSeries` but whose
subsequent reads return `laterFetchSeries`. -/
def dbShift : DB := fun i => if i = 0 then .ok firstFetchSeries else .ok laterFetchSeries

/-- A store that agrees with `dbSame` on call sites 0–14 and fails beyond. -/
def dbTail : DB := fun i => if i ≤ 14 then .ok firstFetchSeries else .error "late"

/-- An `f64` price value including the non-finite case relevant to sorting:
a finite value (modelled as ℚ) or NaN.  `±∞` compare totally under
`partial_cmp` and sort like finite values; NaN is the value whose
comparisons return `None` and so hit the `unwrap_or(Ordering::Equal)`
branch of the code's comparators. -/
inductive FPrice
  | fin (q : ℚ)
  | nan
deriving DecidableEq, Repr

/-- `f64::partial_cmp` on the full price domain: `None` whenever either
side is NaN. -/
def partialCmpF : FPrice → FPrice → Option Ordering
  | .fin a, .fin b => partialCmpQ a b
  | _, _ => none

/-- An hour-price pair over the full `f64` price domain. -/
abbrev FHourPrice := Nat × FPrice

/-- The `highest` comparator over the full price domain, NaN comparisons
defaulting to `Equal`. -/
def cmpFAsc (a b : FHourPrice) : Ordering := (partialCmpF a.2 b.2).getD .eq

/-- The `lowest` comparator over the full price domain, NaN comparisons
defaulting to `Equal`. -/
def cmpFDesc (a b : FHourPrice) : Ordering := (partialCmpF b.2 a.2).getD .eq

/-- Stable insertion over the full price domain, as `insertCmp`. -/
def insertCmpF (c : FHourPrice → FHourPrice → Ordering) (x : FHourPrice) :
    List FHourPrice → List FHourPrice
  | [] => [x]
  | y :: ys => if c y x = .lt then y :: insertCmpF c x ys else x :: y :: ys

/-- Stable sort over the full price domain, as `sortCmp`: a stable sort
agreeing with `Vec::sort_by` wherever the comparator is a total order. -/
def sortCmpF (c : FHourPrice → FHourPrice → Ordering) :
    List FHourPrice → List FHourPrice
  | [] => []
  | x :: xs => insertCmpF c x (sortCmpF c xs)

/-- The window filter of `highest`/`lowest` over the full price domain (it
only inspects the hour). -/
def windowFilterF (start stop : Nat) (l : List FHourPrice) : List FHourPrice :=
  l.filter fun hp => decide (start ≤ hp.1) && decide (hp.1 ≤ stop)

/-- `highest` over the full price domain. -/
def highestF (prices : List FHourPrice) (count start stop : Nat) :
    List FHourPrice :=
  (sortCmpF cmpFAsc (windowFilterF start stop prices)).take count

/-- `lowest` over the full price domain. -/
def lowestF (prices : List FHourPrice) (count start stop : Nat) :
    List FHourPrice :=
  (sortCmpF cmpFDesc (windowFilterF start stop prices)).take count

/-- A day series containing a NaN price: hours 0, 1, 2 priced NaN, 1, 2. -/
def nanSeries : List FHourPrice := [(0, .nan), (1, .fin 1), (2, .fin 2)]

/-- Inserting with `insertCmp` permutes: the result holds the new element and
the old ones. -/
theorem insertCmp_perm (c : HourPrice → HourPrice → Ordering) (x : HourPrice)
    (l : List HourPrice) : List.Perm (insertCmp c x l) (x :: l) := by
  induction l with
  | nil => exact List.Perm.refl _
  | cons y ys ih =>
    unfold insertCmp
    by_cases h : c y x = .lt
    · simp only [if_pos h]
      exact (ih.cons y).trans (List.Perm.swap x y ys)
    · simp only [if_neg h]
      exact List.Perm.refl _

/-- `sortCmp` permutes its input. -/
theorem sortCmp_perm (c : HourPrice → HourPrice → Ordering) (l : List HourPrice) :
    List.Perm (sortCmp c l) l := by
  induction l with
  | nil => exact List.Perm.refl _
  | cons x xs ih => exact (insertCmp_perm c x (sortCmp c xs)).trans (ih.cons x)

/-- Inserting into a list pairwise-ordered under a relation compatible with
the comparator keeps it pairwise-ordered. -/
theorem insertCmp_pairwise (c : HourPrice → HourPrice → Ordering)
    (r : HourPrice → HourPrice → Prop)
    (hlt : ∀ a b, c a b = .lt → r a b)
    (hge : ∀ a b, ¬(c a b = .lt) → r b a)
    (htr : ∀ a b d, r a b → r b d → r a d)
    (x : HourPrice) : ∀ l : List HourPrice, l.Pairwise r →
    (insertCmp c x l).Pairwise r := by
  intro l
  induction l with
  | nil =>
    intro _
    simp [insertCmp]
  | cons y ys ih =>
    intro hs
    rcases List.pairwise_cons.mp hs with ⟨hy, hys⟩
    unfold insertCmp
    by_cases h : c y x = .lt
    · simp only [if_pos h]
      refine List.pairwise_cons.mpr ⟨?_, ih hys⟩
      intro z hz
      rcases List.mem_cons.mp ((insertCmp_perm c x ys).mem_iff.mp hz) with hzx | hzys
      · subst hzx
        exact hlt y z h
      · exact hy z hzys
    · simp only [if_neg h]
      refine List.pairwise_cons.mpr ⟨?_, hs⟩
      intro z hz
      rcases List.mem_cons.mp hz with hzy | hzys
      · subst hzy
        exact hge z x h
      · exact htr x y z (hge y x h) (hy z hzys)

/-- `sortCmp` output is pairwise-ordered under any relation compatible with
the comparator. -/
theorem sortCmp_pairwise (c : HourPrice → HourPrice → Ordering)
    (r : HourPrice → HourPrice → Prop)
    (hlt : ∀ a b, c a b = .lt → r a b)
    (hge : ∀ a b, ¬(c a b = .lt) → r b a)
    (htr : ∀ a b d, r a b → r b d → r a d)
    (l : List HourPrice) : (sortCmp c l).Pairwise r := by
  induction l with
  | nil => simp [sortCmp]
  | cons x xs ih => exact insertCmp_pairwise c r hlt hge htr x _ ih

/-- The ascending comparator answers `lt` exactly on strictly smaller prices. -/
theorem cmpByPriceAsc_lt {a b : HourPrice} : cmpByPriceAsc a b = .lt ↔ a.2 < b.2 := by
  unfold cmpByPriceAsc partialCmpQ
  split_ifs with h1 h2 <;> simp_all

/-- The descending comparator answers `lt` exactly on strictly larger prices. -/
theorem cmpByPriceDesc_lt {a b : HourPrice} : cmpByPriceDesc a b = .lt ↔ b.2 < a.2 := by
  unfold cmpByPriceDesc partialCmpQ
  split_ifs with h1 h2 <;> simp_all

/-- C10 (amended): for every fetched day series all of whose prices
pairwise compare under `partial_cmp` — all finite, ties allowed; hours
unique, hence at most 24 entries — `highest(series, 24, 0, 23)` and
`lowest(series, 24, 0, 23)` — the code's `rankTop`/`rankBottom` over the
full day — are reverse orderings of each other on price; both are stable
sorts of the same filtered window under opposite comparators built from
`partial_cmp` defaulting to `Equal`.  For a series containing NaN the
comparator is not a total order and the reversal is not guaranteed: see the
counterexample below. -/
theorem c10_rank_reverse_on_price (s : List HourPrice) (h : s.length ≤ 24) :
    (lowest s 24 0 23).map Prod.snd = ((highest s 24 0 23).map Prod.snd).reverse := by
  have hlen : (windowFilter 0 23 s).length ≤ 24 :=
    le_trans (List.length_filter_le _ s) h
  have hlenA : (sortCmp cmpByPriceAsc (windowFilter 0 23 s)).length ≤ 24 := by
    rw [(sortCmp_perm cmpByPriceAsc (windowFilter 0 23 s)).length_eq]
    exact hlen
  have hlenD : (sortCmp cmpByPriceDesc (windowFilter 0 23 s)).length ≤ 24 := by
    rw [(sortCmp_perm cmpByPriceDesc (windowFilter 0 23 s)).length_eq]
    exact hlen
  have hasc : highest s 24 0 23 = sortCmp cmpByPriceAsc (windowFilter 0 23 s) := by
    unfold highest
    exact List.take_of_length_le hlenA
  have hdesc : lowest s 24 0 23 = sortCmp cmpByPriceDesc (windowFilter 0 23 s) := by
    unfold lowest
    exact List.take_of_length_le hlenD
  rw [hasc, hdesc]
  have hsortedA : List.Pairwise (fun a b : ℚ => a ≤ b)
      ((sortCmp cmpByPriceAsc (windowFilter 0 23 s)).map Prod.snd) := by
    rw [List.pairwise_map]
    exact sortCmp_pairwise cmpByPriceAsc (fun a b : HourPrice => a.2 ≤ b.2)
      (fun a b hab => le_of_lt (cmpByPriceAsc_lt.mp hab))
      (fun a b hab => le_of_not_lt (fun hlt2 => hab (cmpByPriceAsc_lt.mpr hlt2)))
      (fun a b d hab hbd => le_trans hab hbd) (windowFilter 0 23 s)
  have hsortedD : List.Pairwise (fun a b : ℚ => b ≤ a)
      ((sortCmp cmpByPriceDesc (windowFilter 0 23 s)).map Prod.snd) := by
    rw [List.pairwise_map]
    exact sortCmp_pairwise cmpByPriceDesc (fun a b : HourPrice => b.2 ≤ a.2)
      (fun a b hab => le_of_lt (cmpByPriceDesc_lt.mp hab))
      (fun a b hab => le_of_not_lt (fun hlt2 => hab (cmpByPriceDesc_lt.mpr hlt2)))
      (fun a b d hab hbd => le_trans hbd hab) (windowFilter 0 23 s)
  have hperm : List.Perm
      (((sortCmp cmpByPriceDesc (windowFilter 0 23 s)).map Prod.snd).reverse)
      ((sortCmp cmpByPriceAsc (windowFilter 0 23 s)).map Prod.snd) :=
    (List.reverse_perm _).trans
      (((sortCmp_perm cmpByPriceDesc (windowFilter 0 23 s)).trans
        (sortCmp_perm cmpByPriceAsc (windowFilter 0 23 s)).symm).map Prod.snd)
  have heq : ((sortCmp cmpByPriceDesc (windowFilter 0 23 s)).map Prod.snd).reverse =
      (sortCmp cmpByPriceAsc (windowFilter 0 23 s)).map Prod.snd :=
    List.eq_of_perm_of_sorted hperm (List.pairwise_reverse.mpr hsortedD) hsortedA
  rw [← heq, List.reverse_reverse]

/-- C10 counterexample: on a day series containing a NaN price the claim as
frozen fails.  `nanSeries` carries prices NaN, 1, 2 at hours 0, 1, 2.  The
Equal-defaulting comparator is not transitive (first three conjuncts: NaN
compares equal to both 1 and 2, yet 1 < 2), so `Vec::sort_by`'s
documentation no longer pins down one output.  The two outputs below come
from the file's stable sort model and satisfy every guarantee `sort_by`
gives — each is a permutation of the filtered window (conjuncts 4–5) and
each is pairwise non-descending under its own comparator (conjuncts 6–7) —
yet `lowest`'s price sequence [NaN, 2, 1] is not the reverse [2, 1, NaN] of
`highest`'s [NaN, 1, 2] (last conjunct): the two full-day rankings are not
reverse orderings of each other on price. -/
theorem c10_nan_not_reverse_cex :
    cmpFAsc (0, .nan) (1, .fin 1) = .eq ∧
    cmpFAsc (1, .fin 1) (2, .fin 2) = .lt ∧
    cmpFAsc (0, .nan) (2, .fin 2) = .eq ∧
    List.Perm (highestF nanSeries 24 0 23) (windowFilterF 0 23 nanSeries) ∧
    List.Perm (lowestF nanSeries 24 0 23) (windowFilterF 0 23 nanSeries) ∧
    List.Pairwise (fun a b => ¬(cmpFAsc a b = .gt)) (highestF nanSeries 24 0 23) ∧
    List.Pairwise (fun a b => ¬(cmpFDesc a b = .gt)) (lowestF nanSeries 24 0 23) ∧
    (lowestF nanSeries 24 0 23).map Prod.snd ≠
      ((highestF nanSeries 24 0 23).map Prod.snd).reverse :=
  ⟨by decide, by decide, by decide, List.isPerm_iff.mp (by decide),
    List.isPerm_iff.mp (by decide), by decide, by decide, by decide⟩

/-- Witness for C10 at a concrete tied series of three entries. -/
theorem c10_rank_reverse_on_price_witness :
    ([((0:Nat), (5:ℚ)), (1, 5), (2, 7)] : List HourPrice).length ≤ 24 ∧
    (lowest [((0:Nat), (5:ℚ)), (1, 5), (2, 7)] 24 0 23).map Prod.snd =
      ((highest [((0:Nat), (5:ℚ)), (1, 5), (2, 7)] 24 0 23).map Prod.snd).reverse :=
  ⟨by decide, c10_rank_reverse_on_price _ (by decide)⟩

/-- C9: the ranking window filter keeps exactly the hours `h` with
`start ≤ h ≤ stop`, inclusive on both ends; on the series
`{5: 10, 6: 20, 7: 5}` the window (5,6) keeps hours 5 and 6 and the window
(6,6) keeps only hour 6; and any entry with hour 6 lies in both quarter-day
windows (0,6) and (6,12) that `refine` passes to `in_top`. -/
theorem c9_window_inclusive :
    (∀ start stop (s : List HourPrice) (p : HourPrice),
      p ∈ windowFilter start stop s ↔ p ∈ s ∧ start ≤ p.1 ∧ p.1 ≤ stop) ∧
    (windowFilter 5 6 boundarySeries).map Prod.fst = [5, 6] ∧
    (windowFilter 6 6 boundarySeries).map Prod.fst = [6] ∧
    (∀ (s : List HourPrice) (p : HourPrice), p ∈ s → p.1 = 6 →
      p ∈ windowFilter 0 6 s ∧ p ∈ windowFilter 6 12 s) := by
  have hiff : ∀ start stop (s : List HourPrice) (p : HourPrice),
      p ∈ windowFilter start stop s ↔ p ∈ s ∧ start ≤ p.1 ∧ p.1 ≤ stop := by
    intro start stop s p
    simp [windowFilter, List.mem_filter]
  refine ⟨hiff, by decide, by decide, ?_⟩
  intro s p hp h6
  constructor <;> rw [hiff] <;> exact ⟨hp, by omega, by omega⟩

/-- Witness for C9: the entry (6, 20) of the example series lies in both
quarter-day windows. -/
theorem c9_window_inclusive_witness :
    ((6, 20) : HourPrice) ∈ boundarySeries ∧
    ((6, 20) : HourPrice) ∈ windowFilter 0 6 boundarySeries ∧
    ((6, 20) : HourPrice) ∈ windowFilter 6 12 boundarySeries :=
  ⟨by decide, (c9_window_inclusive.2.2.2 boundarySeries (6, 20) (by decide) rfl).1,
    (c9_window_inclusive.2.2.2 boundarySeries (6, 20) (by decide) rfl).2⟩

/-- C8 counterexample: thresholds (90, 115) and (0.9, 1.15) do NOT produce
identical windows.  The code normalizes every threshold strictly greater
than 1.0, so 1.15 becomes 0.0115 and the second window is empty, while the
first window holds hour 0 (price 10, average 10). -/
theorem c8_percent_fraction_cex :
    rel_thresh 90 115 thrCexSeries thrCexSeries = [(0, 10)] ∧
    rel_thresh (9/10) (23/20) thrCexSeries thrCexSeries = [] := by
  constructor <;>
    · simp only [rel_thresh, avgOf, thrCexSeries]
      norm_num [List.filter_cons, List.filter_nil]

/-- C8 (amended): `rel_thresh` keeps exactly the fetched entries whose price
lies strictly between `low' * avg` and `high' * avg`, each threshold `t`
normalized independently to `t / 100` when `t > 1` and kept as-is otherwise;
thresholds (90, 115) and (0.9, 115) give identical windows (a fraction-form
threshold must itself be ≤ 1, so 1.15 is not equivalent to 115); an entry
whose price equals a bound exactly is excluded. -/
theorem c8_rel_thresh_window (low high : ℚ) (s : List HourPrice) :
    (∀ p : HourPrice, p ∈ rel_thresh low high s s ↔ p ∈ s ∧
      (if 1 < low then low / 100 else low) * avgOf s < p.2 ∧
      p.2 < (if 1 < high then high / 100 else high) * avgOf s) ∧
    rel_thresh 90 115 s s = rel_thresh (9/10) 115 s s ∧
    (∀ p : HourPrice, p ∈ s →
      p.2 = (if 1 < low then low / 100 else low) * avgOf s →
      p ∉ rel_thresh low high s s) := by
  have hiff : ∀ p : HourPrice, p ∈ rel_thresh low high s s ↔ p ∈ s ∧
      (if 1 < low then low / 100 else low) * avgOf s < p.2 ∧
      p.2 < (if 1 < high then high / 100 else high) * avgOf s := by
    intro p
    simp only [rel_thresh, List.mem_filter, Bool.and_eq_true, decide_eq_true_eq]
    constructor
    · rintro ⟨h1, h2, h3⟩
      exact ⟨h1, h3, h2⟩
    · rintro ⟨h1, h2, h3⟩
      exact ⟨h1, h3, h2⟩
  refine ⟨hiff, ?_, ?_⟩
  · have e1 : (if (1:ℚ) < 90 then (90:ℚ) / 100 else 90) =
        (if (1:ℚ) < 9/10 then (9:ℚ)/10 / 100 else 9/10) := by norm_num
    simp only [rel_thresh]
    rw [e1]
  · intro p hp heq hmem
    rcases (hiff p).mp hmem with ⟨-, hlt2, -⟩
    rw [heq] at hlt2
    exact lt_irrefl _ hlt2

/-- Witness for C8: on `thrBoundarySeries` hour 0 sits exactly on the low
bound 0.9 * average and is excluded from the (90, 115) window. -/
theorem c8_rel_thresh_window_witness :
    ((0, 9) : HourPrice) ∈ thrBoundarySeries ∧
    ((9:ℚ) = (if (1:ℚ) < 90 then (90:ℚ) / 100 else 90) * avgOf thrBoundarySeries) ∧
    ((0, 9) : HourPrice) ∉ rel_thresh 90 115 thrBoundarySeries thrBoundarySeries :=
  ⟨by decide, by norm_num [avgOf, thrBoundarySeries],
    (c8_rel_thresh_window 90 115 thrBoundarySeries).2.2 (0, 9) (by decide)
      (by norm_num [avgOf, thrBoundarySeries])⟩

/-- C1: for the 24-entry strictly decreasing series (hour 0 most expensive,
hour 23 cheapest) the code's `max` resolves to hour 23 — the MINIMUM-price
pair — and `min` resolves to hour 0 — the MAXIMUM-price pair, because
`highest` sorts ascending and `lowest` descending before taking the front.
The claim (and the function names) require the opposite. -/
theorem c1_max_min_reversed :
    maxPair decSeries24 = .ok (23, 1) ∧ minPair decSeries24 = .ok (0, 24) := by
  decide

/-- C4: on the strictly decreasing series, hour 0 (the most expensive hour
of the day) satisfies `in_8_low` while hour 16 (one of the 8 cheapest hours
of the day) does not: `in_8_low` draws from `lowest(Today, 8, 0, 8)`, which
is the descending-sorted window of hours 0–8 — the 8 HIGHEST-priced hours of
the 0–8 window, not the 8 lowest of the full day.  A requested hour absent
from the series (here 25) yields `false` rather than an error. -/
theorem c4_in_8_low_reversed :
    in_8_low 0 decSeries24 = true ∧ in_8_low 16 decSeries24 = false ∧
    in_8_low 25 decSeries24 = false := by
  decide

/-- C7: on the spec's test vector (hours 0–7 priced 9,8,7,6,5,4,3,2) the
code's `in_6_l_8` is true for hours 0–5 and false for hours 6 and 7 —
because the reversed `highest` returns the 2 (resp. 8) CHEAPEST hours of the
0–8 window — whereas the claim requires false for hours 0,1 and true for
hours 2–7. -/
theorem c7_in_6_l_8_table :
    ((List.range 8).map fun h => in_6_l_8 h shoulderSeries shoulderSeries) =
      [true, true, true, true, true, true, false, false] := by
  decide

/-- C2 counterexample: for the one-entry series [(0, 48)] the code's
`average` returns 48 / 24 = 2, not the arithmetic mean 48 / 1 = 48. -/
theorem c2_average_not_mean_cex :
    average [((0:Nat), (48:ℚ))] = .ok 2 ∧ ((48:ℚ) / 1 = 48) ∧ (2:ℚ) ≠ 48 := by
  refine ⟨?_, by norm_num, by norm_num⟩
  norm_num [average, avgOf]

/-- C2 (amended): `average(series)` always equals the price sum divided by
the literal 24 — it coincides with sum/count exactly when the series has 24
entries — and `price_ratio(hour, series)` equals the price at positional
index `hour` divided by that fixed-24 average whenever the index is in
bounds. -/
theorem c2_average_fixed24 (prices : List HourPrice) :
    average prices = .ok ((prices.map Prod.snd).sum / 24) ∧
    (prices.length = 24 →
      average prices = .ok ((prices.map Prod.snd).sum / prices.length)) ∧
    ∀ now (h : now < prices.length),
      price_ratio now prices =
        .ok ((prices.get ⟨now, h⟩).2 / ((prices.map Prod.snd).sum / 24)) := by
  refine ⟨rfl, ?_, ?_⟩
  · intro h24
    rw [h24]
    norm_num [average, avgOf]
  · intro now h
    unfold price_ratio price_now
    rw [List.get?_eq_get h]
    rfl

/-- Witness for C2 at the one-entry series [(0, 2)] and index 0. -/
theorem c2_average_fixed24_witness :
    0 < ([((0:Nat), (2:ℚ))] : List HourPrice).length ∧
    price_ratio 0 [((0:Nat), (2:ℚ))] = .ok ((2:ℚ) / (2 / 24)) :=
  ⟨by decide, by simpa using (c2_average_fixed24 [((0:Nat), (2:ℚ))]).2.2 0 (by decide)⟩

/-- C3 counterexample: `price_now` indexes positionally, not by the hour
field.  On the series [(5, 10)] the request for hour 0 succeeds with price
10 although no entry has hour 0, and the request for hour 5 fails although
the entry with hour field 5 is present. -/
theorem c3_price_now_positional_cex :
    price_now 0 [((5:Nat), (10:ℚ))] = .ok 10 ∧
    (([((5:Nat), (10:ℚ))] : List HourPrice).all fun p => decide (p.1 ≠ 0)) = true ∧
    (price_now 5 [((5:Nat), (10:ℚ))]).isOk = false := by
  decide

/-- C3 (amended): `price_now(now, series)` returns the price of the entry at
positional index `now`, and fails exactly when the series has at most `now`
entries; it agrees with lookup by the hour field only when entry `i` carries
hour `i` for every index (as in a complete series sorted by hour). -/
theorem c3_price_now_positional (now : Nat) (prices : List HourPrice) :
    (∀ h : now < prices.length,
      price_now now prices = .ok (prices.get ⟨now, h⟩).2) ∧
    (prices.length ≤ now → price_now now prices =
      .error ("Access index out of bounds using hour = " ++ toString now)) ∧
    ((∀ i (h : i < prices.length), (prices.get ⟨i, h⟩).1 = i) →
      ∀ h : now < prices.length,
        ∃ p, p ∈ prices ∧ p.1 = now ∧ price_now now prices = .ok p.2) := by
  refine ⟨?_, ?_, ?_⟩
  · intro h
    unfold price_now
    rw [List.get?_eq_get h]
  · intro h
    unfold price_now
    rw [List.get?_eq_none.mpr h]
  · intro hall h
    exact ⟨prices.get ⟨now, h⟩, List.get_mem _ _ _, hall now h, by
      unfold price_now
      rw [List.get?_eq_get h]⟩

/-- Witness for C3 at a two-entry series: index 1 succeeds with the second
price, index 5 is out of bounds and errors. -/
theorem c3_price_now_positional_witness :
    price_now 1 [((0:Nat), (5:ℚ)), (1, 6)] = .ok 6 ∧
    price_now 5 [((0:Nat), (5:ℚ)), (1, 6)] =
      .error ("Access index out of bounds using hour = " ++ toString 5) :=
  ⟨by simpa using (c3_price_now_positional 1 [((0:Nat), (5:ℚ)), (1, 6)]).1 (by decide),
    (c3_price_now_positional 5 [((0:Nat), (5:ℚ)), (1, 6)]).2.1 (by decide)⟩

/-- C5 counterexample: two runs of `refine(0)` whose FIRST fetch returns the
same series but whose later re-fetches differ produce different records (the
`pris_max` field flips from 0 to 1), so the record is not a function of the
first fetch alone. -/
theorem c5_refetch_dependence_cex :
    dbSame 0 = dbShift 0 ∧
    (refineRecord 0 dbSame).map RefinedData.pris_max = .ok 0 ∧
    (refineRecord 0 dbShift).map RefinedData.pris_max = .ok 1 := by
  decide

/-- C5 (amended): the record produced by `refine(hour)` is a function of
`hour` and of the series returned by ALL fifteen `get_prices` call sites of
the call (the initial fetch and the fourteen re-fetches performed by the
sub-computations): two runs in which every one of those fetches returns the
same series yield identical flags and values, and reads beyond those call
sites are irrelevant. -/
theorem c5_deterministic_in_all_fetches (hour : Nat) (db db' : DB)
    (H : ∀ i, i ≤ 14 → db i = db' i) :
    refineRecord hour db = refineRecord hour db' := by
  have h0 := H 0 (by norm_num)
  have h1 := H 1 (by norm_num)
  have h2 := H 2 (by norm_num)
  have h3 := H 3 (by norm_num)
  have h4 := H 4 (by norm_num)
  have h5 := H 5 (by norm_num)
  have h6 := H 6 (by norm_num)
  have h7 := H 7 (by norm_num)
  have h8 := H 8 (by norm_num)
  have h9 := H 9 (by norm_num)
  have h10 := H 10 (by norm_num)
  have h11 := H 11 (by norm_num)
  have h12 := H 12 (by norm_num)
  have h13 := H 13 (by norm_num)
  have h14 := H 14 (by norm_num)
  simp only [refineRecord, maxPairF, minPairF, in_6_l_8F, in_topF, within_threshF,
    in_8_lowF, h0, h1, h2, h3, h4, h5, h6, h7, h8, h9, h10, h11, h12, h13, h14]

/-- Witness for C5: `dbTail` agrees with `dbSame` on call sites 0–14 (and
fails beyond them), so the two records coincide. -/
theorem c5_deterministic_in_all_fetches_witness :
    refineRecord 0 dbSame = refineRecord 0 dbTail :=
  c5_deterministic_in_all_fetches 0 dbSame dbTail
    (fun i hi => by simp [dbSame, dbTail, hi])

/-- C6: `refine` is all-or-nothing.  Its result is `.ok` — and only then is
the single row written to the store — exactly when the initial fetch, the
three series statistics (`average`, `price_now`, `price_ratio`) and all
thirteen joined sub-computations succeed; any failing sub-computation makes
the whole call return an error, and no partial record exists. -/
theorem c6_all_or_nothing (hour : Nat) (db : DB) :
    (refineRecord hour db).isOk = subsOk hour db := by
  unfold refineRecord subsOk
  cases h0 : db 0 with
  | error e => rfl
  | ok prices =>
    simp only [Except.bind, average, Except.isOk, Except.toBool]
    cases h1 : price_now hour prices with
    | error e =>
      simp [price_ratio, h1, Except.isOk, Except.toBool, Except.bind]
    | ok vTime =>
      have hr : price_ratio hour prices = .ok (vTime / avgOf prices) := by
        simp [price_ratio, h1, average, Except.bind]
      simp only [hr, h1, Except.bind, Except.isOk, Except.toBool]
      cases h2 : maxPairF db with
      | error e => simp [Except.isOk, Except.toBool]
      | ok pmax =>
        simp only [Except.isOk, Except.toBool, Bool.true_and]
        cases h3 : minPairF db with
        | error e => simp [Except.isOk, Except.toBool]
        | ok pmin =>
          simp only [Except.isOk, Except.toBool, Bool.true_and]
          cases h4 : in_6_l_8F hour db with
          | error e => simp [Except.isOk, Except.toBool]
          | ok b1 =>
            simp only [Except.isOk, Except.toBool, Bool.true_and]
            cases h5 : in_topF hour db 3 0 6 with
            | error e => simp [Except.isOk, Except.toBool]
            | ok b2 =>
              simp only [Except.isOk, Except.toBool, Bool.true_and]
              cases h6 : in_topF hour db 4 6 12 with
              | error e => simp [Except.isOk, Except.toBool]
              | ok b3 =>
                simp only [Except.isOk, Except.toBool, Bool.true_and]
                cases h7 : in_topF hour db 5 12 18 with
                | error e => simp [Except.isOk, Except.toBool]
                | ok b4 =>
                  simp only [Except.isOk, Except.toBool, Bool.true_and]
                  cases h8 : in_topF hour db 6 18 24 with
                  | error e => simp [Except.isOk, Except.toBool]
                  | ok b5 =>
                    simp only [Except.isOk, Except.toBool, Bool.true_and]
                    cases h9 : within_threshF hour 90 115 prices db 7 with
                    | error e => simp [Except.isOk, Except.toBool]
                    | ok b6 =>
                      simp only [Except.isOk, Except.toBool, Bool.true_and]
                      cases h10 : within_threshF hour 60 90 prices db 8 with
                      | error e => simp [Except.isOk, Except.toBool]
                      | ok b7 =>
                        simp only [Except.isOk, Except.toBool, Bool.true_and]
                        cases h11 : within_threshF hour 0 60 prices db 9 with
                        | error e => simp [Except.isOk, Except.toBool]
                        | ok b8 =>
                          simp only [Except.isOk, Except.toBool, Bool.true_and]
                          cases h12 : within_threshF hour 115 140 prices db 10 with
                          | error e => simp [Except.isOk, Except.toBool]
                          | ok b9 =>
                            simp only [Except.isOk, Except.toBool, Bool.true_and]
                            cases h13 : within_threshF hour 140 999 prices db 11 with
                            | error e => simp [Except.isOk, Except.toBool]
                            | ok b10 =>
                              simp only [Except.isOk, Except.toBool, Bool.true_and]
                              cases h14 : in_8_lowF hour db with
                              | error e => simp [Except.isOk, Except.toBool]
                              | ok b11 => simp [Except.isOk, Except.toBool]

end Refiner
